import Mathlib

/-!
Shallow embedding of the tunnel lifecycle core of `tunnel_manager.py`
(class `TunnelManager`): the live tunnel map, `create_tunnel`,
`terminate_tunnel`, `get_tunnel_stats`, and the snapshot builder
`_snapshot_for_log` / `_log_writer_loop` payload.

Modelling conventions:
* The Python dict `self.active_tunnels` is an association list from the
  port string to a `TunnelRecord`; dict item assignment replaces in place
  (preserving position) or appends, `pop`/`del` remove the key.  Reachable
  maps have no duplicate keys, so erasing is modelled with `List.filter`.
* Wall-clock effects are oracles passed in: successive `datetime.now`
  timestamps are a function `ts : Nat → String`; elapsed seconds at each
  loop iteration come attached to the input line; the HTTP probe outcome,
  the non-blocking `poll` result and the psutil teardown outcome are
  explicit inputs.
* Fallible OS interaction is an outcome datatype, not an exception.
-/

namespace TunnelOperator

/-- Opaque handle to the spawned subprocess (`subprocess.Popen` object);
only its `pid` attribute is read by the manager. -/
structure ProcHandle where
  pid : Nat
deriving DecidableEq, Repr

/-- One entry of `self.active_tunnels`: the dict literal built at
`create_tunnel` registration (keys `process`, `public_url`, `start_time`,
`logs`, `pid`, `status`, `health`, `ping`, `status_text`, `port`). -/
structure TunnelRecord where
  process : ProcHandle
  public_url : String
  start_time : Nat
  logs : List String
  pid : Nat
  status : String
  health : Nat
  ping : Nat
  status_text : String
  port : String
deriving DecidableEq, Repr

/-- The live map `self.active_tunnels`, keyed by port string. -/
abbrev TunnelMap := List (String × TunnelRecord)

/-- Dict membership / read: `self.active_tunnels[port]`. -/
def lookupPort : TunnelMap → String → Option TunnelRecord
  | [], _ => none
  | (a, b) :: rest, k => if a = k then some b else lookupPort rest k

/-- Dict removal: `self.active_tunnels.pop(port)` / `del`.  Python dicts
have unique keys, so erasing every binding of `k` coincides with removing
the one binding. -/
def erasePort : TunnelMap → String → TunnelMap
  | [], _ => []
  | (a, b) :: rest, k =>
      if a = k then erasePort rest k else (a, b) :: erasePort rest k

/-- In-place mutation of one record's fields
(`self.active_tunnels[k].update(...)` or appending to its `logs`);
a no-op when the key is absent, matching the guarded
`if k in self.active_tunnels` uses in the source. -/
def modifyPort : TunnelMap → String → (TunnelRecord → TunnelRecord) →
    TunnelMap
  | [], _, _ => []
  | (a, b) :: rest, k, f =>
      if a = k then (a, f b) :: modifyPort rest k f
      else (a, b) :: modifyPort rest k f

/-- Dict item assignment `self.active_tunnels[k] = v`: replace in place if
present (preserving the key's position), else append. -/
def setPort (m : TunnelMap) (k : String) (v : TunnelRecord) : TunnelMap :=
  if (lookupPort m k).isSome then modifyPort m k (fun _ => v)
  else m ++ [(k, v)]

/-! ### Probe classification (`get_tunnel_stats`, lines 263-291) -/

/-- Outcome of `requests.get(public_url, timeout=5, verify=False)`:
a response with its status code and the measured round-trip in ms, or one
of the exception classes caught by the source. -/
inductive ProbeOutcome where
  | response (code : Nat) (ms : Nat)
  | timeout
  | connError
  | otherError
deriving DecidableEq, Repr

/-- The classification block of `get_tunnel_stats`: the `try`/`except`
ladder that sets `health`, `ping`, `status`. -/
def classify_probe : ProbeOutcome → Nat × Nat × String
  | .response code ms =>
      if 200 ≤ code ∧ code < 500 then (100, ms, "Healthy")
      else (25, ms, "HTTP " ++ toString code)
  | .timeout => (10, 5000, "Connection timeout")
  | .connError => (0, 5000, "Connection failed")
  | .otherError => (5, 5000, "Request Error")

/-! ### `terminate_tunnel` (lines 182-243) -/

/-- Outcome of the OS-level teardown attempted after the record is popped:
`ok` (psutil tree termination ran), `noSuchProcess`
(`psutil.NoSuchProcess`: process already gone, treated as success),
`psutilError` (other psutil failure, falls back to `process.terminate()`),
`fatal` (an unexpected exception reaching the outer `except`, which
returns `False`). -/
inductive TeardownOutcome where
  | ok
  | noSuchProcess
  | psutilError
  | fatal
deriving DecidableEq, Repr

/-- `terminate_tunnel(port)`: pop the record under the lock first; absent
port returns `False` with the map untouched; otherwise OS teardown runs on
the popped record and only its outcome decides the returned flag — the map
transition is the pop alone (the outer `except` re-deletes the key, which
is already gone). -/
def terminate_tunnel (m : TunnelMap) (port : String) (td : TeardownOutcome) :
    Bool × TunnelMap :=
  match lookupPort m port with
  | none => (false, m)
  | some _ =>
      let m' := erasePort m port
      match td with
      | .fatal => (false, erasePort m' port)
      | _ => (true, m')

/-! ### `get_tunnel_stats` (lines 245-306) -/

/-- `get_tunnel_stats(port)`: sentinel for unknown port; self-cleanup via
`terminate_tunnel` when the non-blocking `poll` reports the process exited
(`pollExited`); otherwise the bounded HTTP probe is classified and its
result cached onto the record (`health`, `ping`, `status_text`).
Returns the `(health, ping, status_text)` triple and the resulting map. -/
def get_tunnel_stats (m : TunnelMap) (port : String) (pollExited : Bool)
    (probe : ProbeOutcome) (td : TeardownOutcome) :
    (Nat × Nat × String) × TunnelMap :=
  match lookupPort m port with
  | none => ((0, 0, "Tunnel not found"), m)
  | some _ =>
      if pollExited then
        ((0, 0, "Process terminated"), (terminate_tunnel m port td).2)
      else
        let r := classify_probe probe
        let m' := modifyPort m port (fun rec0 =>
          { rec0 with health := r.1, ping := r.2.1, status_text := r.2.2 })
        (r, m')

/-! ### URL discovery (`create_tunnel`, line 119)

`re.search(r'(https://[a-zA-Z0-9-]+\.trycloudflare\.com)', line)`:
leftmost occurrence of the literal `https://` followed by a non-empty run
of `[a-zA-Z0-9-]` followed by the literal `.trycloudflare.com`; the greedy
`+` needs no backtracking because `.` is not a label character, so the
maximal run is the only candidate at each start position. -/

/-- A character of the class `[a-zA-Z0-9-]`. -/
def isLabelChar (c : Char) : Bool :=
  (97 ≤ c.toNat && c.toNat ≤ 122) || (65 ≤ c.toNat && c.toNat ≤ 90) ||
  (48 ≤ c.toNat && c.toNat ≤ 57) || c = '-'

/-- Strip an exact literal from the front, returning the remainder. -/
def dropExact : List Char → List Char → Option (List Char)
  | [], cs => some cs
  | _ :: _, [] => none
  | p :: ps, c :: cs => if c = p then dropExact ps cs else none

def urlHead : List Char := "https://".toList

def urlTail : List Char := ".trycloudflare.com".toList

/-- Attempt the regex match anchored at the head of `cs`. -/
def matchUrlAt (cs : List Char) : Option (List Char) :=
  match dropExact urlHead cs with
  | none => none
  | some rest =>
      let run := rest.takeWhile isLabelChar
      if run.isEmpty then none
      else
        match dropExact urlTail (rest.dropWhile isLabelChar) with
        | none => none
        | some _ => some (urlHead ++ run ++ urlTail)

/-- Leftmost match: try each start position left to right. -/
def searchUrlChars : List Char → Option (List Char)
  | [] => none
  | c :: cs =>
      match matchUrlAt (c :: cs) with
      | some u => some u
      | none => searchUrlChars cs

/-- `url_match.group(0)` of the search, or `none` when no match. -/
def searchUrl (s : String) : Option String :=
  (searchUrlChars s.toList).map (fun cs => String.mk cs)

/-! ### `create_tunnel` (lines 74-165) -/

/-- The timestamped log entry built by `log_appender`:
`f"[{datetime.now().strftime('%H:%M:%S')}] {line.strip()}"`. -/
def logEntry (ts : String) (line : String) : String :=
  "[" ++ ts ++ "] " ++ line.trim

/-- The mutable context threaded through `create_tunnel`'s body: the
`datetime.now` call counter, the local `logs` list, and the live map
(whose matching record's log buffer `log_appender` also appends to when
the port is already registered). -/
structure LogCtx where
  k : Nat
  logs : List String
  st : TunnelMap

/-- `log_appender(line)` (lines 79-86). -/
def appendLog (port : String) (ts : Nat → String) (c : LogCtx)
    (line : String) : LogCtx :=
  let e := logEntry (ts c.k) line
  ⟨c.k + 1, c.logs ++ [e],
    modifyPort c.st port (fun r => { r with logs := r.logs ++ [e] })⟩

/-- Result of the line-reading loop (lines 113-132): a URL was found, the
20s safety timeout fired on a consumed line, or the stream ended (an empty
line, or `stdout` exhausted). -/
inductive ScanOut where
  | found (url : String) (c : LogCtx)
  | timeoutFail (c : LogCtx)
  | streamEnd (c : LogCtx)

/-- The `for line in iter(process.stdout.readline, '')` loop: each input
line carries the elapsed whole seconds `time.time() - start_time` observed
at its timeout check.  Per-line order: log the line, test the URL regex
(success wins even past the deadline), then test `elapsed > 20`. -/
def scanLines (port : String) (ts : Nat → String) :
    List (String × Nat) → LogCtx → ScanOut
  | [], c => .streamEnd c
  | (line, t) :: rest, c =>
      if line = "" then .streamEnd c
      else
        let c1 := appendLog port ts c line
        match searchUrl line with
        | some u => .found u (appendLog port ts c1 ("Public URL found: " ++ u))
        | none =>
            if 20 < t then
              .timeoutFail
                (appendLog port ts c1 "Error: Timeout waiting for public URL.")
            else scanLines port ts rest c1

/-- Environment of one `create_tunnel` call: the resolved cloudflared
path, the successive wall-clock timestamps, whether `subprocess.Popen`
raised, the spawned `process.pid`, `time.time()` at registration, and the
stdout line stream with elapsed seconds. -/
structure CreateEnv where
  cfPath : String
  ts : Nat → String
  spawnErr : Option String
  pid : Nat
  spawnTime : Nat
  lines : List (String × Nat)

/-- The `(success, public_url, logs)` triple returned by `create_tunnel`
(`url` is `none` for Python `None`), plus an effect trace recording
whether `process.terminate()` was attempted on a failure path. -/
structure CreateResult where
  success : Bool
  url : Option String
  logs : List String
  termAsked : Bool
deriving DecidableEq, Repr

/-- `' '.join(cmd)` for
`[cloudflared_path, 'tunnel', '--url', f'http://127.0.0.1:{port_str}']`. -/
def cmdString (cfPath : String) (port_str : String) : String :=
  cfPath ++ " tunnel --url http://127.0.0.1:" ++ port_str

/-- `create_tunnel(port)` (lines 74-165). -/
def create_tunnel (m : TunnelMap) (port : Nat) (env : CreateEnv) :
    CreateResult × TunnelMap :=
  let port_str := toString port
  let c0 := appendLog port_str env.ts ⟨0, [], m⟩
    ("Executing command: " ++ cmdString env.cfPath port_str)
  match env.spawnErr with
  | some e =>
      let c1 := appendLog port_str env.ts c0 ("Fatal Error: " ++ e)
      (⟨false, none, ["Error: " ++ e], false⟩, c1.st)
  | none =>
      match scanLines port_str env.ts env.lines c0 with
      | .found u c =>
          let rec0 : TunnelRecord :=
            { process := ⟨env.pid⟩, public_url := u,
              start_time := env.spawnTime, logs := c.logs, pid := env.pid,
              status := "active", health := 100, ping := 0,
              status_text := "Active", port := port_str }
          (⟨true, some u, c.logs, false⟩, setPort c.st port_str rec0)
      | .timeoutFail c => (⟨false, none, c.logs, true⟩, c.st)
      | .streamEnd c =>
          let c1 := appendLog port_str env.ts c
            "Error: Process terminated before URL was found."
          (⟨false, none, c1.logs, true⟩, c1.st)

/-! ### Snapshot builder (`_snapshot_for_log`, lines 308-327, and the
`_log_writer_loop` payload, lines 339-354) -/

/-- One value of the `tunnels` mapping in `log.json`: exactly the eight
keys written by `_snapshot_for_log` — the verbose `logs` and the process
handle are deliberately not included. -/
structure SnapshotEntry where
  port : String
  public_url : String
  status : String
  status_text : String
  health : Nat
  ping : Nat
  pid : Nat
  start_time : Option String
deriving DecidableEq, Repr

/-- The per-record dict literal of `_snapshot_for_log`; `iso` models
`lambda t: datetime.fromtimestamp(t).isoformat()`, and the
`if data.get('start_time')` truthiness test makes a zero timestamp
serialize as `None`. -/
def snapshotEntryOf (iso : Nat → String) (k : String) (r : TunnelRecord) :
    SnapshotEntry :=
  { port := k, public_url := r.public_url, status := r.status,
    status_text := r.status_text, health := r.health, ping := r.ping,
    pid := r.pid,
    start_time := if r.start_time ≠ 0 then some (iso r.start_time) else none }

/-- `_snapshot_for_log(self)`: one entry per live record, in map order. -/
def snapshot_for_log (iso : Nat → String) (m : TunnelMap) :
    List (String × SnapshotEntry) :=
  m.map (fun kv => (kv.1, snapshotEntryOf iso kv.1 kv.2))

/-- The JSON object written each cycle by `_log_writer_loop`: exactly the
keys `generated_at` and `tunnels`. -/
structure LogPayload where
  generated_at : String
  tunnels : List (String × SnapshotEntry)

/-- One iteration's payload: `{'generated_at': datetime.now().isoformat(),
'tunnels': snapshot}`. -/
def log_writer_payload (now : String) (iso : Nat → String) (m : TunnelMap) :
    LogPayload :=
  ⟨now, snapshot_for_log iso m⟩

/-- Lookup in the serialized `tunnels` mapping. -/
def lookupSnap : List (String × SnapshotEntry) → String → Option SnapshotEntry
  | [], _ => none
  | (a, b) :: rest, k => if a = k then some b else lookupSnap rest k

/-- The log context carried by any scan outcome. -/
def ScanOut.ctx : ScanOut → LogCtx
  | .found _ c => c
  | .timeoutFail c => c
  | .streamEnd c => c

/-- The block of timestamped entries the reading loop appends for a list
of consumed lines, timestamp indices starting at `k0`. -/
def stampedLogs (ts : Nat → String) : Nat → List String → List String
  | _, [] => []
  | k0, l :: rest => logEntry (ts k0) l :: stampedLogs ts (k0 + 1) rest

/-- The probe classification table exactly as the spec's words state it
(refinement reference for C1; this definition follows the SPEC, not the
source): HTTP status 200-499 is the healthy row, status ≥ 500 the
`HTTP <code>` row, plus the three exception rows — and nothing else. -/
abbrev spec_probe_table : ProbeOutcome → Nat × Nat × String → Prop
  | .response code ms, r =>
      (200 ≤ code ∧ code ≤ 499 ∧ r = (100, ms, "Healthy")) ∨
      (500 ≤ code ∧ r = (25, ms, "HTTP " ++ toString code))
  | .timeout, r => r = (10, 5000, "Connection timeout")
  | .connError, r => r = (0, 5000, "Connection failed")
  | .otherError, r => r = (5, 5000, "Request Error")

/-- C1's table amended at the single point where the code differs from the
spec's words: every response status outside 200-499 — below 200 as well as
500 and above — takes the `(25, measured ms, "HTTP <code>")` row. -/
abbrev amended_probe_table : ProbeOutcome → Nat × Nat × String → Prop
  | .response code ms, r =>
      (200 ≤ code ∧ code ≤ 499 ∧ r = (100, ms, "Healthy")) ∨
      ((code < 200 ∨ 500 ≤ code) ∧ r = (25, ms, "HTTP " ++ toString code))
  | .timeout, r => r = (10, 5000, "Connection timeout")
  | .connError, r => r = (0, 5000, "Connection failed")
  | .otherError, r => r = (5, 5000, "Request Error")

/-- A concrete live record used to instantiate witnesses. -/
def rA : TunnelRecord :=
  { process := ⟨77⟩, public_url := "https://abc-def.trycloudflare.com",
    start_time := 111, logs := [], pid := 77, status := "active",
    health := 100, ping := 0, status_text := "Active", port := "5000" }

/-- Concrete creation environment: `subprocess.Popen` raises `"boom"`. -/
def envBoom : CreateEnv :=
  ⟨"cloudflared", fun _ => "12:00:00", some "boom", 77, 111, []⟩

/-- Concrete creation environment: the only matching line arrives when 25
seconds have already elapsed; the line before it is in the window. -/
def envLate : CreateEnv :=
  ⟨"cloudflared", fun _ => "12:00:00", none, 77, 111,
    [("x", 1), ("rdy https://abc-def.trycloudflare.com", 25)]⟩

/-- Concrete creation environment: one non-matching line past the
deadline, so the safety timeout fires. -/
def envNoUrl : CreateEnv :=
  ⟨"cloudflared", fun _ => "12:00:00", none, 77, 111, [("x", 21)]⟩

/-- Concrete creation environment: a matching line inside the window. -/
def envGood : CreateEnv :=
  ⟨"cloudflared", fun _ => "12:00:00", none, 77, 111,
    [("starting", 1), ("rdy https://abc-def.trycloudflare.com", 2)]⟩

/-! ### Basic map lemmas -/

theorem lookupPort_erasePort_self (m : TunnelMap) (k : String) :
    lookupPort (erasePort m k) k = none := by
  induction m with
  | nil => rfl
  | cons kv rest ih =>
      obtain ⟨a, b⟩ := kv
      by_cases h : a = k
      · simpa [erasePort, h] using ih
      · simpa [erasePort, lookupPort, h] using ih

theorem lookupPort_erasePort_ne (m : TunnelMap) (k q : String) (h : q ≠ k) :
    lookupPort (erasePort m k) q = lookupPort m q := by
  have h2 : ¬ k = q := fun hc => h hc.symm
  induction m with
  | nil => rfl
  | cons kv rest ih =>
      obtain ⟨a, b⟩ := kv
      by_cases hk : a = k
      · simpa [erasePort, lookupPort, hk, h2] using ih
      · by_cases hq : a = q
        · simp [erasePort, lookupPort, hk, hq, h]
        · simpa [erasePort, lookupPort, hk, hq] using ih

theorem lookupPort_modifyPort_self (m : TunnelMap) (k : String)
    (f : TunnelRecord → TunnelRecord) (r : TunnelRecord)
    (h : lookupPort m k = some r) :
    lookupPort (modifyPort m k f) k = some (f r) := by
  induction m with
  | nil => simp [lookupPort] at h
  | cons kv rest ih =>
      obtain ⟨a, b⟩ := kv
      by_cases hk : a = k
      · simp [lookupPort, hk] at h
        simp [modifyPort, lookupPort, hk, h]
      · simp [lookupPort, hk] at h
        simpa [modifyPort, lookupPort, hk] using ih h

theorem lookupPort_modifyPort_ne (m : TunnelMap) (k q : String)
    (f : TunnelRecord → TunnelRecord) (h : q ≠ k) :
    lookupPort (modifyPort m k f) q = lookupPort m q := by
  have h2 : ¬ k = q := fun hc => h hc.symm
  induction m with
  | nil => rfl
  | cons kv rest ih =>
      obtain ⟨a, b⟩ := kv
      by_cases hk : a = k
      · simpa [modifyPort, lookupPort, hk, h2] using ih
      · by_cases hq : a = q
        · simp [modifyPort, lookupPort, hk, hq, h]
        · simpa [modifyPort, lookupPort, hk, hq] using ih

theorem lookupPort_modifyPort (m : TunnelMap) (k : String)
    (f : TunnelRecord → TunnelRecord) :
    lookupPort (modifyPort m k f) k = (lookupPort m k).map f := by
  induction m with
  | nil => rfl
  | cons kv rest ih =>
      obtain ⟨a, b⟩ := kv
      by_cases hk : a = k
      · simp [modifyPort, lookupPort, hk]
      · simpa [modifyPort, lookupPort, hk] using ih

theorem lookupPort_append_single (m : TunnelMap) (k : String)
    (v : TunnelRecord) (h : lookupPort m k = none) :
    lookupPort (m ++ [(k, v)]) k = some v := by
  induction m with
  | nil => simp [lookupPort]
  | cons kv rest ih =>
      obtain ⟨a, b⟩ := kv
      by_cases hk : a = k
      · simp [lookupPort, hk] at h
      · simp [lookupPort, hk] at h ⊢
        exact ih h

theorem lookupPort_setPort_self (m : TunnelMap) (k : String)
    (v : TunnelRecord) : lookupPort (setPort m k v) k = some v := by
  unfold setPort
  cases h : lookupPort m k with
  | none => simpa [h] using lookupPort_append_single m k v h
  | some r => simp [h, lookupPort_modifyPort]

theorem erasePort_erasePort (m : TunnelMap) (k : String) :
    erasePort (erasePort m k) k = erasePort m k := by
  induction m with
  | nil => rfl
  | cons kv rest ih =>
      obtain ⟨a, b⟩ := kv
      by_cases hk : a = k
      · simpa [erasePort, hk] using ih
      · simpa [erasePort, hk] using ih

theorem terminate_absent (m : TunnelMap) (port : String)
    (td : TeardownOutcome) :
    lookupPort (terminate_tunnel m port td).2 port = none := by
  unfold terminate_tunnel
  cases h : lookupPort m port with
  | none => simpa using h
  | some r => cases td <;> simp [lookupPort_erasePort_self]

theorem lookupPort_modifyPort_none (m : TunnelMap) (k q : String)
    (f : TunnelRecord → TunnelRecord) (h : lookupPort m q = none) :
    lookupPort (modifyPort m k f) q = none := by
  by_cases hq : q = k
  · subst hq
    simp [lookupPort_modifyPort, h]
  · rw [lookupPort_modifyPort_ne m k q f hq]
    exact h

theorem appendLog_st_none (port q : String) (ts : Nat → String)
    (c : LogCtx) (line : String) (h : lookupPort c.st q = none) :
    lookupPort (appendLog port ts c line).st q = none :=
  lookupPort_modifyPort_none _ _ _ _ h

/-- The reading loop only touches the live map through `log_appender`'s
guarded in-place update, so a port absent at entry is absent in the
context of every scan outcome. -/
theorem scan_ctx_none (port q : String) (ts : Nat → String)
    (lines : List (String × Nat)) (c : LogCtx)
    (h : lookupPort c.st q = none) :
    lookupPort (scanLines port ts lines c).ctx.st q = none := by
  induction lines generalizing c with
  | nil => simpa [scanLines, ScanOut.ctx] using h
  | cons p rest ih =>
      obtain ⟨line, t⟩ := p
      by_cases h1 : line = ""
      · simpa [scanLines, h1, ScanOut.ctx] using h
      · cases hu : searchUrl line with
        | some u =>
            simp only [scanLines, if_neg h1, hu, ScanOut.ctx]
            exact appendLog_st_none _ _ _ _ _
              (appendLog_st_none _ _ _ _ _ h)
        | none =>
            by_cases h2 : 20 < t
            · simp only [scanLines, if_neg h1, hu, if_pos h2, ScanOut.ctx]
              exact appendLog_st_none _ _ _ _ _
                (appendLog_st_none _ _ _ _ _ h)
            · simp only [scanLines, if_neg h1, hu, if_neg h2]
              exact ih _ (appendLog_st_none _ _ _ _ _ h)

/-- A stream none of whose lines matches the URL pattern can only end the
loop by stream close or by the safety timeout. -/
theorem scan_all_unmatched (port : String) (ts : Nat → String)
    (lines : List (String × Nat)) (c : LogCtx)
    (hall : ∀ p ∈ lines, searchUrl p.1 = none) :
    (∃ c2, scanLines port ts lines c = ScanOut.streamEnd c2) ∨
    (∃ c2, scanLines port ts lines c = ScanOut.timeoutFail c2) := by
  revert hall
  induction lines generalizing c with
  | nil => exact fun _ => Or.inl ⟨c, rfl⟩
  | cons p rest ih =>
      intro hall
      obtain ⟨line, t⟩ := p
      have hline : searchUrl line = none := hall (line, t) (by simp)
      by_cases h1 : line = ""
      · exact Or.inl ⟨c, by simp [scanLines, h1]⟩
      · by_cases h2 : 20 < t
        · refine Or.inr ⟨appendLog port ts (appendLog port ts c line)
            "Error: Timeout waiting for public URL.", ?_⟩
          simp only [scanLines, if_neg h1, hline, if_pos h2]
        · have hrest : ∀ p ∈ rest, searchUrl p.1 = none :=
            fun p hp => hall p (by simp [hp])
          obtain ⟨c2, hc2⟩ | ⟨c2, hc2⟩ := ih (appendLog port ts c line) hrest
          · exact Or.inl ⟨c2, by
              simp only [scanLines, if_neg h1, hline, if_neg h2]
              exact hc2⟩
          · exact Or.inr ⟨c2, by
              simp only [scanLines, if_neg h1, hline, if_neg h2]
              exact hc2⟩

/-- If every line before some matching, non-empty line is non-empty,
unmatched and inside the 20-second window, the loop succeeds with exactly
that line's URL. -/
theorem scan_found_at (port : String) (ts : Nat → String)
    (before after : List (String × Nat)) (line : String) (t : Nat)
    (u : String) (c : LogCtx)
    (hb : ∀ p ∈ before, p.1 ≠ "" ∧ searchUrl p.1 = none ∧ p.2 ≤ 20)
    (hline : line ≠ "") (hu : searchUrl line = some u) :
    ∃ c2, scanLines port ts (before ++ (line, t) :: after) c =
      ScanOut.found u c2 := by
  revert hb
  induction before generalizing c with
  | nil =>
      intro _
      refine ⟨appendLog port ts (appendLog port ts c line)
        ("Public URL found: " ++ u), ?_⟩
      simp only [List.nil_append, scanLines, if_neg hline, hu]
  | cons p rest ih =>
      intro hb
      obtain ⟨l0, t0⟩ := p
      obtain ⟨h1, h2, h3⟩ := hb (l0, t0) (by simp)
      have hnot : ¬ 20 < t0 := by omega
      obtain ⟨c2, hc2⟩ := ih (appendLog port ts c l0)
        (fun p hp => hb p (by simp [hp]))
      exact ⟨c2, by
        simp only [List.cons_append, scanLines, if_neg h1, h2, if_neg hnot]
        exact hc2⟩

/-- Log shape of a timeout exit: the consumed lines form a proper,
timestamped block followed by the timestamped timeout message. -/
theorem scan_timeout_logs (port : String) (ts : Nat → String)
    (lines : List (String × Nat)) (c c' : LogCtx)
    (h : scanLines port ts lines c = ScanOut.timeoutFail c') :
    ∃ consumed rest, lines = consumed ++ rest ∧
      c'.logs = c.logs ++ stampedLogs ts c.k (consumed.map Prod.fst) ++
        [logEntry (ts (c.k + consumed.length))
          "Error: Timeout waiting for public URL."] := by
  revert c c'
  induction lines with
  | nil => intro c c' h; simp [scanLines] at h
  | cons p rest ih =>
      intro c c' h
      obtain ⟨line, t⟩ := p
      by_cases h1 : line = ""
      · simp [scanLines, h1] at h
      · cases hu : searchUrl line with
        | some u => simp [scanLines, h1, hu] at h
        | none =>
            by_cases h2 : 20 < t
            · simp only [scanLines, if_neg h1, hu, if_pos h2,
                ScanOut.timeoutFail.injEq] at h
              refine ⟨[(line, t)], rest, rfl, ?_⟩
              rw [← h]
              simp [appendLog, logEntry, stampedLogs]
            · simp only [scanLines, if_neg h1, hu, if_neg h2] at h
              obtain ⟨consumed, rest2, hsplit, hlogs⟩ := ih _ _ h
              refine ⟨(line, t) :: consumed, rest2, by simp [hsplit], ?_⟩
              rw [hlogs]
              have hk : c.k + 1 + consumed.length =
                  c.k + (consumed.length + 1) := by omega
              simp [appendLog, stampedLogs, logEntry, hk,
                List.append_assoc]

/-- Log shape of a stream-close exit: exactly the consumed lines,
timestamped, and the timestamp counter advanced by their number. -/
theorem scan_end_logs (port : String) (ts : Nat → String)
    (lines : List (String × Nat)) (c c' : LogCtx)
    (h : scanLines port ts lines c = ScanOut.streamEnd c') :
    ∃ consumed rest, lines = consumed ++ rest ∧
      c'.logs = c.logs ++ stampedLogs ts c.k (consumed.map Prod.fst) ∧
      c'.k = c.k + consumed.length := by
  revert c c'
  induction lines with
  | nil =>
      intro c c' h
      simp only [scanLines, ScanOut.streamEnd.injEq] at h
      exact ⟨[], [], rfl, by simp [← h, stampedLogs]⟩
  | cons p rest ih =>
      intro c c' h
      obtain ⟨line, t⟩ := p
      by_cases h1 : line = ""
      · simp only [scanLines, if_pos h1, ScanOut.streamEnd.injEq] at h
        exact ⟨[], (line, t) :: rest, rfl, by simp [← h, stampedLogs]⟩
      · cases hu : searchUrl line with
        | some u => simp [scanLines, h1, hu] at h
        | none =>
            by_cases h2 : 20 < t
            · simp [scanLines, h1, hu, h2] at h
            · simp only [scanLines, if_neg h1, hu, if_neg h2] at h
              obtain ⟨consumed, rest2, hsplit, hlogs, hk⟩ := ih _ _ h
              refine ⟨(line, t) :: consumed, rest2, by simp [hsplit], ?_, ?_⟩
              · rw [hlogs]
                simp [appendLog, stampedLogs, logEntry, List.append_assoc]
              · rw [hk]
                simp [appendLog]
                omega

/-! ### Claim theorems -/

/-- C3: for every port not present in the live tunnel map,
`get_tunnel_stats` returns exactly `(0, 0, "Tunnel not found")` — a
defined sentinel, not a raised error (the embedding is a total function)
— and leaves the map unchanged, whatever the probe, poll and teardown
environment would have been. -/
theorem C3_unknown_port_sentinel (m : TunnelMap) (port : String)
    (pe : Bool) (o : ProbeOutcome) (td : TeardownOutcome)
    (h : lookupPort m port = none) :
    get_tunnel_stats m port pe o td = ((0, 0, "Tunnel not found"), m) := by
  simp [get_tunnel_stats, h]

theorem C3_unknown_port_sentinel_witness :
    get_tunnel_stats [] "5000" false ProbeOutcome.timeout TeardownOutcome.ok
      = ((0, 0, "Tunnel not found"), []) :=
  C3_unknown_port_sentinel [] "5000" false ProbeOutcome.timeout
    TeardownOutcome.ok rfl

/-- C4: for a port whose record is live but whose backing process has
exited (non-blocking poll reports an exit), `get_tunnel_stats` performs
self-cleanup through `terminate_tunnel`, returns exactly
`(0, 0, "Process terminated")`, the port is absent from the live map
afterwards, and every subsequent `get_tunnel_stats` on it returns the
not-found sentinel. -/
theorem C4_dead_process_cleanup (m : TunnelMap) (port : String)
    (r : TunnelRecord) (o o' : ProbeOutcome) (td td' : TeardownOutcome)
    (pe' : Bool) (h : lookupPort m port = some r) :
    get_tunnel_stats m port true o td =
      ((0, 0, "Process terminated"), (terminate_tunnel m port td).2) ∧
    lookupPort (terminate_tunnel m port td).2 port = none ∧
    (get_tunnel_stats (terminate_tunnel m port td).2 port pe' o' td').1 =
      (0, 0, "Tunnel not found") := by
  refine ⟨by simp [get_tunnel_stats, h], terminate_absent m port td, ?_⟩
  simp [get_tunnel_stats, terminate_absent m port td]

theorem C4_dead_process_cleanup_witness :
    get_tunnel_stats [("5000", rA)] "5000" true ProbeOutcome.timeout
        TeardownOutcome.ok =
      ((0, 0, "Process terminated"),
        (terminate_tunnel [("5000", rA)] "5000" TeardownOutcome.ok).2) ∧
    lookupPort (terminate_tunnel [("5000", rA)] "5000"
      TeardownOutcome.ok).2 "5000" = none ∧
    (get_tunnel_stats (terminate_tunnel [("5000", rA)] "5000"
        TeardownOutcome.ok).2 "5000" false ProbeOutcome.timeout
        TeardownOutcome.ok).1 = (0, 0, "Tunnel not found") :=
  C4_dead_process_cleanup [("5000", rA)] "5000" rA ProbeOutcome.timeout
    ProbeOutcome.timeout TeardownOutcome.ok TeardownOutcome.ok false
    (by decide)

/-- C5: for a port present in the live map, `terminate_tunnel`'s only map
transition is the initial pop — the resulting map is `erasePort m port`
for every teardown outcome, i.e. the removal precedes and is independent
of all OS-level teardown — and on every execution path, including the
fatal one that returns `false`, the port is absent when it returns. -/
theorem C5_terminate_removes_record_first (m : TunnelMap) (port : String)
    (r : TunnelRecord) (td : TeardownOutcome)
    (h : lookupPort m port = some r) :
    (terminate_tunnel m port td).2 = erasePort m port ∧
    lookupPort (terminate_tunnel m port td).2 port = none ∧
    (td = TeardownOutcome.fatal → (terminate_tunnel m port td).1 = false) := by
  refine ⟨?_, terminate_absent m port td, ?_⟩
  · unfold terminate_tunnel
    rw [h]
    cases td <;> simp [erasePort_erasePort]
  · intro hf
    subst hf
    unfold terminate_tunnel
    rw [h]

theorem C5_terminate_removes_record_first_witness :
    (terminate_tunnel [("5000", rA)] "5000" TeardownOutcome.fatal).2 =
      erasePort [("5000", rA)] "5000" ∧
    lookupPort (terminate_tunnel [("5000", rA)] "5000"
      TeardownOutcome.fatal).2 "5000" = none ∧
    (TeardownOutcome.fatal = TeardownOutcome.fatal →
      (terminate_tunnel [("5000", rA)] "5000" TeardownOutcome.fatal).1 =
        false) :=
  C5_terminate_removes_record_first [("5000", rA)] "5000" rA
    TeardownOutcome.fatal (by decide)

/-- C6: `terminate_tunnel` on a port absent from the live map returns
`false` with the map untouched (a failure result; the embedding is a
total function, so no exception is possible), and two consecutive calls
on a live port — the first with a non-fatal teardown — yield `true` then
`false`. -/
theorem C6_terminate_idempotent (m m0 : TunnelMap) (port : String)
    (td td' : TeardownOutcome) (r : TunnelRecord)
    (habs : lookupPort m0 port = none)
    (hpres : lookupPort m port = some r) (hok : td ≠ TeardownOutcome.fatal) :
    terminate_tunnel m0 port td' = (false, m0) ∧
    (terminate_tunnel m port td).1 = true ∧
    (terminate_tunnel (terminate_tunnel m port td).2 port td').1 = false := by
  refine ⟨by simp [terminate_tunnel, habs], ?_, ?_⟩
  · unfold terminate_tunnel
    rw [hpres]
    cases td <;> simp_all
  · have h2 := terminate_absent m port td
    generalize hM : (terminate_tunnel m port td).2 = M at h2 ⊢
    simp [terminate_tunnel, h2]

theorem C6_terminate_idempotent_witness :
    terminate_tunnel [] "5000" TeardownOutcome.ok = (false, []) ∧
    (terminate_tunnel [("5000", rA)] "5000" TeardownOutcome.ok).1 = true ∧
    (terminate_tunnel (terminate_tunnel [("5000", rA)] "5000"
      TeardownOutcome.ok).2 "5000" TeardownOutcome.ok).1 = false :=
  C6_terminate_idempotent [("5000", rA)] [] "5000" TeardownOutcome.ok
    TeardownOutcome.ok rA (by decide) (by decide) (by decide)

/-- C10: a completed probe on a live, running tunnel returns exactly the
classification of the HTTP outcome and mutates only the `health`, `ping`
and `status_text` fields of that port's record (`port`, `public_url`,
`pid`, `start_time`, `status`, the process handle and the log buffer are
those of the old record), and records of every other port are unchanged. -/
theorem C10_probe_frame (m : TunnelMap) (port q : String)
    (r : TunnelRecord) (o : ProbeOutcome) (td : TeardownOutcome)
    (h : lookupPort m port = some r) (hq : q ≠ port) :
    (get_tunnel_stats m port false o td).1 = classify_probe o ∧
    lookupPort (get_tunnel_stats m port false o td).2 port =
      some { r with health := (classify_probe o).1,
                    ping := (classify_probe o).2.1,
                    status_text := (classify_probe o).2.2 } ∧
    lookupPort (get_tunnel_stats m port false o td).2 q = lookupPort m q := by
  refine ⟨by simp [get_tunnel_stats, h], ?_, ?_⟩
  · simp only [get_tunnel_stats, h]
    exact lookupPort_modifyPort_self m port _ r h
  · simp only [get_tunnel_stats, h]
    exact lookupPort_modifyPort_ne m port q _ hq

theorem C10_probe_frame_witness :
    (get_tunnel_stats [("5000", rA)] "5000" false
      (ProbeOutcome.response 200 42) TeardownOutcome.ok).1 =
      classify_probe (ProbeOutcome.response 200 42) ∧
    lookupPort (get_tunnel_stats [("5000", rA)] "5000" false
        (ProbeOutcome.response 200 42) TeardownOutcome.ok).2 "5000" =
      some { rA with
        health := (classify_probe (ProbeOutcome.response 200 42)).1,
        ping := (classify_probe (ProbeOutcome.response 200 42)).2.1,
        status_text := (classify_probe (ProbeOutcome.response 200 42)).2.2 } ∧
    lookupPort (get_tunnel_stats [("5000", rA)] "5000" false
        (ProbeOutcome.response 200 42) TeardownOutcome.ok).2 "8080" =
      lookupPort [("5000", rA)] "8080" :=
  C10_probe_frame [("5000", rA)] "5000" "8080" rA
    (ProbeOutcome.response 200 42) TeardownOutcome.ok (by decide) (by decide)

/-- C1 counterexample: the claim's table is not exhaustive over the
code's probe outcomes.  An HTTP response with status 101 (a status a
`requests.get` against a websocket-upgrading endpoint does surface) falls
in neither the 200-499 row nor the ≥500 row of the claimed table, yet the
code's `else` branch classifies it as `(25, measured ms, "HTTP 101")` —
a triple the claim says no probe outcome produces. -/
theorem C1_probe_table_counterexample :
    classify_probe (ProbeOutcome.response 101 50) = (25, 50, "HTTP 101") ∧
    ¬ spec_probe_table (ProbeOutcome.response 101 50)
        (classify_probe (ProbeOutcome.response 101 50)) := by
  constructor
  · rfl
  · decide

/-- C1 amended: for every live port with a running process, the probe
result returned (and cached) by `get_tunnel_stats` is exactly
`classify_probe` of the HTTP outcome, and `classify_probe` realises the
spec's table amended in its response row only: status 200-499 yields
`(100, measured ms, "Healthy")`, every other status — below 200 as well
as ≥500 — yields `(25, measured ms, "HTTP <code>")`; a request timeout
yields `(10, 5000, "Connection timeout")`, a connection error
`(0, 5000, "Connection failed")`, any other transport error
`(5, 5000, "Request Error")`, and no probe outcome produces any other
triple. -/
theorem C1_probe_classification (m : TunnelMap) (port : String)
    (r : TunnelRecord) (o : ProbeOutcome) (td : TeardownOutcome)
    (h : lookupPort m port = some r) :
    (get_tunnel_stats m port false o td).1 = classify_probe o ∧
    amended_probe_table o (classify_probe o) := by
  constructor
  · simp [get_tunnel_stats, h]
  · cases o with
    | response code ms =>
        by_cases hc : 200 ≤ code ∧ code < 500
        · exact Or.inl ⟨hc.1, by omega, by simp [classify_probe, hc]⟩
        · refine Or.inr ⟨by omega, ?_⟩
          simp [classify_probe, hc]
    | timeout => rfl
    | connError => rfl
    | otherError => rfl

theorem C1_probe_classification_witness :
    (get_tunnel_stats [("5000", rA)] "5000" false
      (ProbeOutcome.response 503 40) TeardownOutcome.ok).1 =
      classify_probe (ProbeOutcome.response 503 40) ∧
    amended_probe_table (ProbeOutcome.response 503 40)
      (classify_probe (ProbeOutcome.response 503 40)) :=
  C1_probe_classification [("5000", rA)] "5000" rA
    (ProbeOutcome.response 503 40) TeardownOutcome.ok (by decide)

theorem snapshot_keys (iso : Nat → String) (m : TunnelMap) :
    (snapshot_for_log iso m).map Prod.fst = m.map Prod.fst := by
  induction m with
  | nil => rfl
  | cons kv rest ih => simp [snapshot_for_log, ih]

theorem lookupSnap_snapshot (iso : Nat → String) (m : TunnelMap)
    (port : String) (r : TunnelRecord) (h : lookupPort m port = some r) :
    lookupSnap (snapshot_for_log iso m) port =
      some (snapshotEntryOf iso port r) := by
  induction m with
  | nil => simp [lookupPort] at h
  | cons kv rest ih =>
      obtain ⟨a, b⟩ := kv
      by_cases ha : a = port
      · simp [lookupPort, ha] at h
        simp [snapshot_for_log, lookupSnap, ha, h]
      · simp [lookupPort, ha] at h
        simpa [snapshot_for_log, lookupSnap, ha] using ih h

theorem snapshot_redacts (iso : Nat → String) (m : TunnelMap)
    (port : String) (lg : List String) (ph : ProcHandle) :
    snapshot_for_log iso
        (modifyPort m port
          (fun r0 => { r0 with logs := lg, process := ph })) =
      snapshot_for_log iso m := by
  induction m with
  | nil => rfl
  | cons kv rest ih =>
      obtain ⟨a, b⟩ := kv
      by_cases ha : a = port
      · simpa [modifyPort, snapshot_for_log, ha, snapshotEntryOf] using ih
      · simpa [modifyPort, snapshot_for_log, ha] using ih

/-- C9: the published payload is exactly
`{generated_at, tunnels}`; `tunnels` has one entry per live port (same
keys, in map order), each entry being exactly the eight-field projection
`{port, public_url, status, status_text, health, ping, pid, start_time}`
of the record (`start_time` ISO-serialized); and the projection is blind
to the log buffer and the process handle — rewriting them in any record
leaves the snapshot identical, so they never appear in it. -/
theorem C9_snapshot_shape (iso : Nat → String) (now : String)
    (m : TunnelMap) (port : String) (r : TunnelRecord) (lg : List String)
    (ph : ProcHandle) (h : lookupPort m port = some r) :
    log_writer_payload now iso m =
      { generated_at := now, tunnels := snapshot_for_log iso m } ∧
    (snapshot_for_log iso m).map Prod.fst = m.map Prod.fst ∧
    lookupSnap (snapshot_for_log iso m) port =
      some { port := port, public_url := r.public_url, status := r.status,
             status_text := r.status_text, health := r.health,
             ping := r.ping, pid := r.pid,
             start_time := if r.start_time ≠ 0 then some (iso r.start_time)
               else none } ∧
    snapshot_for_log iso
        (modifyPort m port
          (fun r0 => { r0 with logs := lg, process := ph })) =
      snapshot_for_log iso m :=
  ⟨rfl, snapshot_keys iso m, lookupSnap_snapshot iso m port r h,
    snapshot_redacts iso m port lg ph⟩

theorem C9_snapshot_shape_witness :
    log_writer_payload "2025-01-01T00:00:00" (fun _ => "1970-01-01T00:01:51")
        [("5000", rA)] =
      { generated_at := "2025-01-01T00:00:00",
        tunnels := snapshot_for_log (fun _ => "1970-01-01T00:01:51")
          [("5000", rA)] } ∧
    (snapshot_for_log (fun _ => "1970-01-01T00:01:51")
        [("5000", rA)]).map Prod.fst = [("5000", rA)].map Prod.fst ∧
    lookupSnap (snapshot_for_log (fun _ => "1970-01-01T00:01:51")
        [("5000", rA)]) "5000" =
      some { port := "5000", public_url := rA.public_url,
             status := rA.status, status_text := rA.status_text,
             health := rA.health, ping := rA.ping, pid := rA.pid,
             start_time := if rA.start_time ≠ 0 then
               some ((fun _ => "1970-01-01T00:01:51") rA.start_time)
               else none } ∧
    snapshot_for_log (fun _ => "1970-01-01T00:01:51")
        (modifyPort [("5000", rA)] "5000"
          (fun r0 => { r0 with logs := ["x"], process := ⟨9⟩ })) =
      snapshot_for_log (fun _ => "1970-01-01T00:01:51") [("5000", rA)] :=
  C9_snapshot_shape (fun _ => "1970-01-01T00:01:51") "2025-01-01T00:00:00"
    [("5000", rA)] "5000" rA ["x"] ⟨9⟩ (by decide)

/-- C2 counterexample: the claim fails on the spawn-exception path.  With
`subprocess.Popen` raising `"boom"`, `create_tunnel` returns `None` for
the URL (Python `None`, not the claimed empty string) and a fresh
single-line log list `["Error: boom"]` that is untimestamped and omits
the already-consumed, logged `Executing command: ...` line. -/
theorem C2_failure_counterexample :
    (create_tunnel [] 5000 envBoom).1.success = false ∧
    (create_tunnel [] 5000 envBoom).1.url ≠ some "" ∧
    (create_tunnel [] 5000 envBoom).1.logs = ["Error: boom"] ∧
    "[12:00:00] Executing command: cloudflared tunnel --url http://127.0.0.1:5000"
      ∉ (create_tunnel [] 5000 envBoom).1.logs := by
  decide

/-- C2 amended: on every failure path `create_tunnel` returns success
`false` with `None` (not `""`) as the URL.  On the timeout and
stream-close paths the returned logs are exactly the command line entry
followed by every consumed line, each timestamped, ending with a
timestamped line describing the cause; on the spawn-exception path the
returned logs are the single untimestamped line `"Error: <e>"` (the
accumulated timestamped lines are discarded). -/
theorem C2_failure_result (m : TunnelMap) (portN : Nat) (env : CreateEnv) :
    (∀ e, env.spawnErr = some e →
      (create_tunnel m portN env).1 =
        { success := false, url := none, logs := ["Error: " ++ e],
          termAsked := false }) ∧
    (env.spawnErr = none → (create_tunnel m portN env).1.success = false →
      (create_tunnel m portN env).1.url = none ∧
      ∃ consumed rest msg,
        env.lines = consumed ++ rest ∧
        (msg = "Error: Timeout waiting for public URL." ∨
          msg = "Error: Process terminated before URL was found.") ∧
        (create_tunnel m portN env).1.logs =
          logEntry (env.ts 0)
              ("Executing command: " ++ cmdString env.cfPath (toString portN)) ::
            (stampedLogs env.ts 1 (consumed.map Prod.fst) ++
              [logEntry (env.ts (1 + consumed.length)) msg])) := by
  constructor
  · intro e he
    simp only [create_tunnel, he]
  · intro hs hfail
    cases hscan : scanLines (toString portN) env.ts env.lines
        (appendLog (toString portN) env.ts ⟨0, [], m⟩
          ("Executing command: " ++ cmdString env.cfPath (toString portN)))
        with
    | found u c2 =>
        simp only [appendLog] at hscan
        have : (create_tunnel m portN env).1.success = true := by
          simp only [create_tunnel, hs, appendLog, hscan]
        rw [this] at hfail
        exact absurd hfail (by simp)
    | timeoutFail c2 =>
        obtain ⟨consumed, rest, hsplit, hlogs⟩ :=
          scan_timeout_logs _ _ _ _ _ hscan
        simp only [appendLog] at hscan
        have hred : (create_tunnel m portN env).1 =
            { success := false, url := none, logs := c2.logs,
              termAsked := true } := by
          simp only [create_tunnel, hs, appendLog, hscan]
        rw [hred]
        refine ⟨rfl, consumed, rest,
          "Error: Timeout waiting for public URL.", hsplit, Or.inl rfl, ?_⟩
        rw [hlogs]
        simp [appendLog, Nat.add_comm]
    | streamEnd c2 =>
        obtain ⟨consumed, rest, hsplit, hlogs, hk⟩ :=
          scan_end_logs _ _ _ _ _ hscan
        simp only [appendLog] at hscan
        have hred : (create_tunnel m portN env).1 =
            { success := false, url := none,
              logs := c2.logs ++ [logEntry (env.ts c2.k)
                "Error: Process terminated before URL was found."],
              termAsked := true } := by
          simp only [create_tunnel, hs, appendLog, hscan]
        rw [hred]
        refine ⟨rfl, consumed, rest,
          "Error: Process terminated before URL was found.", hsplit,
          Or.inr rfl, ?_⟩
        rw [hlogs, hk]
        simp [appendLog, Nat.add_comm]

theorem C2_failure_result_witness :
    (create_tunnel [] 5000 envBoom).1 =
      { success := false, url := none, logs := ["Error: boom"],
        termAsked := false } ∧
    ((create_tunnel [] 5000 envNoUrl).1.url = none ∧
      ∃ consumed rest msg,
        envNoUrl.lines = consumed ++ rest ∧
        (msg = "Error: Timeout waiting for public URL." ∨
          msg = "Error: Process terminated before URL was found.") ∧
        (create_tunnel [] 5000 envNoUrl).1.logs =
          logEntry (envNoUrl.ts 0)
              ("Executing command: " ++
                cmdString envNoUrl.cfPath (toString 5000)) ::
            (stampedLogs envNoUrl.ts 1 (consumed.map Prod.fst) ++
              [logEntry (envNoUrl.ts (1 + consumed.length)) msg])) :=
  ⟨(C2_failure_result [] 5000 envBoom).1 "boom" rfl,
    (C2_failure_result [] 5000 envNoUrl).2 rfl (by decide)⟩

/-- C7: if the stream carries a non-empty line matching the URL pattern,
and every earlier line is non-empty, unmatched and inside the 20-second
window, `create_tunnel` succeeds: it returns `(true, url, logs)` for the
matched URL and registers a record under the port with status `active`
(`status_text` `Active`), health 100, ping 0, the discovered URL, the
captured pid, and the returned log list as its log buffer. -/
theorem C7_create_registers (m : TunnelMap) (portN : Nat) (env : CreateEnv)
    (before after : List (String × Nat)) (line : String) (t : Nat)
    (u : String) (hspawn : env.spawnErr = none)
    (hlines : env.lines = before ++ (line, t) :: after)
    (hb : ∀ p ∈ before, p.1 ≠ "" ∧ searchUrl p.1 = none ∧ p.2 ≤ 20)
    (hline : line ≠ "") (hu : searchUrl line = some u) :
    (create_tunnel m portN env).1.success = true ∧
    (create_tunnel m portN env).1.url = some u ∧
    ∃ lg, (create_tunnel m portN env).1.logs = lg ∧
      lookupPort (create_tunnel m portN env).2 (toString portN) =
        some { process := ⟨env.pid⟩, public_url := u,
               start_time := env.spawnTime, logs := lg, pid := env.pid,
               status := "active", health := 100, ping := 0,
               status_text := "Active", port := toString portN } := by
  obtain ⟨c2, hc2⟩ := scan_found_at (toString portN) env.ts before after
    line t u
    (appendLog (toString portN) env.ts ⟨0, [], m⟩
      ("Executing command: " ++ cmdString env.cfPath (toString portN)))
    hb hline hu
  simp only [appendLog] at hc2
  have hred : create_tunnel m portN env =
      ({ success := true, url := some u, logs := c2.logs,
          termAsked := false },
        setPort c2.st (toString portN)
          { process := ⟨env.pid⟩, public_url := u,
            start_time := env.spawnTime, logs := c2.logs, pid := env.pid,
            status := "active", health := 100, ping := 0,
            status_text := "Active", port := toString portN }) := by
    simp only [create_tunnel, hspawn, hlines, appendLog, hc2]
  rw [hred]
  exact ⟨rfl, rfl, c2.logs, rfl, lookupPort_setPort_self _ _ _⟩

theorem C7_create_registers_witness :
    (create_tunnel [] 5000 envGood).1.success = true ∧
    (create_tunnel [] 5000 envGood).1.url =
      some "https://abc-def.trycloudflare.com" ∧
    ∃ lg, (create_tunnel [] 5000 envGood).1.logs = lg ∧
      lookupPort (create_tunnel [] 5000 envGood).2 (toString 5000) =
        some { process := ⟨envGood.pid⟩,
               public_url := "https://abc-def.trycloudflare.com",
               start_time := envGood.spawnTime, logs := lg,
               pid := envGood.pid, status := "active", health := 100,
               ping := 0, status_text := "Active",
               port := toString 5000 } :=
  C7_create_registers [] 5000 envGood [("starting", 1)] []
    "rdy https://abc-def.trycloudflare.com" 2
    "https://abc-def.trycloudflare.com" rfl (by decide) (by decide)
    (by decide) (by decide)

/-- C8 counterexample: the claim's 20-second window is not what the code
enforces.  In `envLate` no line matching the pattern appears within 20
seconds (the only lines in the window do not match), yet `create_tunnel`
succeeds, because the per-line URL check precedes the per-line timeout
check, so a match on a line consumed after the deadline still wins. -/
theorem C8_timeout_counterexample :
    (∀ p ∈ envLate.lines, p.2 ≤ 20 → searchUrl p.1 = none) ∧
    (create_tunnel [] 5000 envLate).1.success = true ∧
    (create_tunnel [] 5000 envLate).1.url =
      some "https://abc-def.trycloudflare.com" := by
  decide

/-- C8 amended: for every stream none of whose lines matches the
public-URL pattern (so the loop can only exit by stream close or by the
safety timeout), and a port not already in the live map, `create_tunnel`
returns a failure result, `process.terminate()` is attempted, and no
record is registered for the port. -/
theorem C8_no_match_failure (m : TunnelMap) (portN : Nat) (env : CreateEnv)
    (hspawn : env.spawnErr = none)
    (hall : ∀ p ∈ env.lines, searchUrl p.1 = none)
    (hfresh : lookupPort m (toString portN) = none) :
    (create_tunnel m portN env).1.success = false ∧
    (create_tunnel m portN env).1.url = none ∧
    (create_tunnel m portN env).1.termAsked = true ∧
    lookupPort (create_tunnel m portN env).2 (toString portN) = none := by
  have h0 : lookupPort (appendLog (toString portN) env.ts ⟨0, [], m⟩
      ("Executing command: " ++
        cmdString env.cfPath (toString portN))).st (toString portN) =
      none := appendLog_st_none _ _ _ _ _ hfresh
  have hctx := scan_ctx_none (toString portN) (toString portN) env.ts
    env.lines _ h0
  obtain ⟨c2, hc2⟩ | ⟨c2, hc2⟩ := scan_all_unmatched (toString portN)
    env.ts env.lines
    (appendLog (toString portN) env.ts ⟨0, [], m⟩
      ("Executing command: " ++ cmdString env.cfPath (toString portN)))
    hall
  · rw [hc2] at hctx
    simp only [ScanOut.ctx] at hctx
    simp only [appendLog] at hc2
    have hred : create_tunnel m portN env =
        ({ success := false, url := none,
            logs := (appendLog (toString portN) env.ts c2
              "Error: Process terminated before URL was found.").logs,
            termAsked := true },
          (appendLog (toString portN) env.ts c2
            "Error: Process terminated before URL was found.").st) := by
      simp only [create_tunnel, hspawn, appendLog, hc2]
    rw [hred]
    exact ⟨rfl, rfl, rfl, appendLog_st_none _ _ _ _ _ hctx⟩
  · rw [hc2] at hctx
    simp only [ScanOut.ctx] at hctx
    simp only [appendLog] at hc2
    have hred : create_tunnel m portN env =
        ({ success := false, url := none, logs := c2.logs,
            termAsked := true }, c2.st) := by
      simp only [create_tunnel, hspawn, appendLog, hc2]
    rw [hred]
    exact ⟨rfl, rfl, rfl, hctx⟩

theorem C8_no_match_failure_witness :
    (create_tunnel [] 5000 envNoUrl).1.success = false ∧
    (create_tunnel [] 5000 envNoUrl).1.url = none ∧
    (create_tunnel [] 5000 envNoUrl).1.termAsked = true ∧
    lookupPort (create_tunnel [] 5000 envNoUrl).2 (toString 5000) = none :=
  C8_no_match_failure [] 5000 envNoUrl rfl (by decide) (by decide)

end TunnelOperator
